import Mathlib

/-!
Verification of the TzafonWright MCP server core (session registry, wire
protocol client, bulk provisioner, shutdown path) against its design
specification.  Each definition is a shallow embedding of the corresponding
TypeScript source: `src/tzafonwright/client.ts` (protocol client and bulk
provisioner), `src/sessionManager.ts` (registry), `src/tzafonwrightStore.ts`
(store) and `src/program.ts` (exit watchdog).  Machine numbers are modelled as
`Nat`/`Int`; absent JavaScript fields as `Option`; the single-threaded event
loop as explicit state passing.
-/

namespace TzafonWright

/-! ## Wire protocol data (client.ts lines 3-29) -/

/-- The `ActionType` enum (client.ts 3-10). -/
inductive ActionType where
  | click
  | typeText
  | scroll
  | goto
  | screenshot
  | setViewportSize
  deriving DecidableEq, Repr

/-- The `Command` interface (client.ts 12-23): every field but the kind tag is
optional in the TypeScript source. -/
structure Command where
  action_type : ActionType
  x : Option Int := none
  y : Option Int := none
  text : Option String := none
  delta_x : Option Int := none
  delta_y : Option Int := none
  url : Option String := none
  width : Option Int := none
  height : Option Int := none
  timeout : Option Nat := none
  deriving DecidableEq, Repr

/-- The object serialized onto the wire by `sendAction` (client.ts 239-250):
optional fields are spread in only when defined, and `timeout` is always
present. -/
structure WireCommand where
  action_type : ActionType
  x : Option Int
  y : Option Int
  text : Option String
  delta_x : Option Int
  delta_y : Option Int
  url : Option String
  width : Option Int
  height : Option Int
  timeout : Nat
  deriving DecidableEq, Repr

/-- JavaScript `v || d` on an optional number: the default replaces both an
absent value and a falsy (zero) one. -/
def jsNumOrDefault (v : Option Nat) (d : Nat) : Nat :=
  match v with
  | none => d
  | some n => if n = 0 then d else n

/-- Construction of `commandData` in `sendAction` (client.ts 239-250).  The
wire timeout is `command.timeout || 30000`. -/
def commandData (c : Command) : WireCommand :=
  { action_type := c.action_type
    x := c.x
    y := c.y
    text := c.text
    delta_x := c.delta_x
    delta_y := c.delta_y
    url := c.url
    width := c.width
    height := c.height
    timeout := jsNumOrDefault c.timeout 30000 }

/-- A parsed inbound response frame (client.ts 252-264): `success` defaults to
false when absent (`response.success || false`), the optional base64 image is
kept as the transported text (no claim depends on byte-level decoding). -/
structure WireResponse where
  success : Bool
  error_message : Option String
  image : Option String
  deriving DecidableEq, Repr

/-- An inbound websocket data frame: either it parses as a JSON response, or
`JSON.parse` throws (client.ts 253-271). -/
inductive Frame where
  | ok (r : WireResponse)
  | malformed
  deriving DecidableEq, Repr

/-- The `Result` record handed to the caller (client.ts 25-29). -/
structure ResultR where
  success : Bool
  error_message : Option String
  image : Option String
  deriving DecidableEq, Repr

/-- The body of `messageHandler` (client.ts 252-272): a well-formed frame
resolves the pending promise with the decoded result, a malformed one rejects
it with a parse error. -/
def parseFrame (f : Frame) : Except String ResultR :=
  match f with
  | .ok r => .ok { success := r.success, error_message := r.error_message, image := r.image }
  | .malformed => .error "Failed to parse response"

/-- Observable state of one `TzafonWrightClient` (client.ts 31-38): whether
`this.ws` is non-null, the `isConnected` flag, and the list of handlers
currently attached to the socket's message event, identified by the id of the
call that attached them, in attachment order. -/
structure ClientState where
  wsExists : Bool
  isConnected : Bool
  listeners : List Nat
  deriving DecidableEq, Repr

/-- Immediate effect of entering `sendAction` (client.ts 229-277): a client
with no socket or with `isConnected` false resolves at once with a
not-connected result; otherwise exactly one `messageHandler` for this call is
attached via `ws.on` and the frame is sent. -/
inductive SendStart where
  | notConnected (r : ResultR)
  | attached (s : ClientState)
  deriving DecidableEq, Repr

/-- The state transition of issuing `sendAction` with call id `cid`
(client.ts 229-277).  No single-flight guard exists in the source: a second
call simply attaches a second handler. -/
def sendActionStart (s : ClientState) (cid : Nat) : SendStart :=
  if !s.wsExists || !s.isConnected then
    .notConnected { success := false, error_message := some "Client not connected", image := none }
  else
    .attached { s with listeners := s.listeners ++ [cid] }

/-- Delivery of one inbound message frame.  Node's event emitter runs every
handler attached at emit time; each `messageHandler` parses the frame, detaches
itself (`ws.off`, client.ts 266 and 269) and settles its own call, so every
pending call settles with this same frame and afterwards no handler remains. -/
def deliverMessage (s : ClientState) (f : Frame) :
    ClientState × List (Nat × Except String ResultR) :=
  ({ s with listeners := [] }, s.listeners.map (fun cid => (cid, parseFrame f)))

/-- Delivery of a whole sequence of inbound frames, collecting every call
settlement in order. -/
def runFrames : ClientState → List Frame → ClientState × List (Nat × Except String ResultR)
  | s, [] => (s, [])
  | s, f :: fs =>
    let step := deliverMessage s f
    let rest := runFrames step.1 fs
    (rest.1, step.2 ++ rest.2)

/-- The eventual outcome of one `sendAction` promise given the frames
subsequently delivered on the socket: `none` means the promise never settles.
The source arms no timer in `sendAction` (client.ts 229-282), so a settlement
can only come from a message event. -/
def sendActionOutcome (s : ClientState) (cid : Nat) (frames : List Frame) :
    Option (Except String ResultR) :=
  match sendActionStart s cid with
  | .notConnected r => some (.ok r)
  | .attached s1 =>
    (((runFrames s1 frames).2.filter (fun p => p.1 == cid)).head?).map Prod.snd

/-! ## Bulk provisioner (client.ts 41-200, `createBulkSessions`) -/

/-- Default batch size (client.ts 64): `Math.min(5, count)`. -/
def defaultBatchSize (count : Nat) : Nat := min 5 count

/-- `totalBatches = Math.ceil(count / batchSize)` (client.ts 84), as exact
natural arithmetic for a positive batch size. -/
def totalBatches (count bsize : Nat) : Nat := (count + bsize - 1) / bsize

/-- `startIndex = batchIndex * batchSize` (client.ts 90). -/
def batchStart (bsize i : Nat) : Nat := i * bsize

/-- `endIndex = Math.min(startIndex + batchSize, count)` (client.ts 91). -/
def batchEnd (count bsize i : Nat) : Nat := min (batchStart bsize i + bsize) count

/-- `batchCount = endIndex - startIndex` (client.ts 92). -/
def batchCountAt (count bsize i : Nat) : Nat := batchEnd count bsize i - batchStart bsize i

/-- The sequence of batch sizes produced by the batch loop (client.ts 89-92). -/
def batchSizes (count bsize : Nat) : List Nat :=
  (List.range (totalBatches count bsize)).map (batchCountAt count bsize)

/-- The value a provisioning attempt's promise fulfills with
(client.ts 121-126 and 133-137): the success record carries the client (by
reference id), session id and name; the failure record carries the error and
name.  All are optional here because the accounting loop re-checks their
presence with JavaScript truthiness (client.ts 150-155). -/
structure AttemptValue where
  success : Bool
  client : Option Nat
  sessionId : Option String
  name : Option String
  error : Option String
  deriving DecidableEq, Repr

/-- One element of the `Promise.allSettled` result (client.ts 143-148). -/
inductive Settled where
  | fulfilled (v : AttemptValue)
  | rejected (reason : Option String)
  deriving DecidableEq, Repr

/-- JavaScript truthiness of an optional string (absent and empty are falsy). -/
def strTruthy (o : Option String) : Bool :=
  match o with
  | none => false
  | some s => !(s == "")

/-- JavaScript `v || d` on an optional string. -/
def jsStrOrDefault (o : Option String) (d : String) : String :=
  if strTruthy o then o.getD d else d

/-- The guard deciding the success branch of the accounting loop
(client.ts 150-155): `result.value.success && result.value.client &&
result.value.sessionId && result.value.name`. -/
def valueAccepted (v : AttemptValue) : Bool :=
  v.success && v.client.isSome && strTruthy v.sessionId && strTruthy v.name

/-- A record pushed onto `results.successful` (client.ts 156-160). -/
structure SuccessRec where
  client : Nat
  sessionId : String
  name : String
  deriving DecidableEq, Repr

/-- A record pushed onto `results.failed` (client.ts 163-166 and 170-173). -/
structure FailureRec where
  error : String
  name : String
  deriving DecidableEq, Repr

/-- The accumulator of the per-batch `forEach` (client.ts 145-176): the lists
grown so far for this batch plus the two counters. -/
structure BatchFold where
  successful : List SuccessRec
  failed : List FailureRec
  batchSuccessful : Nat
  batchFailed : Nat
  deriving DecidableEq, Repr

/-- One iteration of the accounting `forEach` (client.ts 148-176): a fulfilled
value passing the truthiness guard is counted successful, every other outcome
is counted failed with the source's fallback strings. -/
def recordResult (st : BatchFold) (r : Settled) : BatchFold :=
  match r with
  | .fulfilled v =>
    if valueAccepted v then
      { st with
        successful := st.successful ++
          [{ client := v.client.getD 0
             sessionId := v.sessionId.getD ""
             name := v.name.getD "" }]
        batchSuccessful := st.batchSuccessful + 1 }
    else
      { st with
        failed := st.failed ++
          [{ error := jsStrOrDefault v.error "Unknown error"
             name := jsStrOrDefault v.name "unknown-session" }]
        batchFailed := st.batchFailed + 1 }
  | .rejected reason =>
      { st with
        failed := st.failed ++
          [{ error := jsStrOrDefault reason "Unknown error"
             name := "unknown-session" }]
        batchFailed := st.batchFailed + 1 }

/-- The whole accounting pass over one batch's settled results, starting from
fresh per-batch counters (client.ts 145-146). -/
def processBatch (settled : List Settled) : BatchFold :=
  settled.foldl recordResult { successful := [], failed := [], batchSuccessful := 0, batchFailed := 0 }

/-- The settled results of one batch: the attempts at global indices
`startIndex .. endIndex - 1` run concurrently and each settles with the
outcome `outcome` assigns to its global index (client.ts 99-143).  The
environment function `outcome` models the nondeterministic result of racing
`connect()` against the connection timeout. -/
def batchSettled (outcome : Nat → Settled) (count bsize i : Nat) : List Settled :=
  (List.range (batchCountAt count bsize i)).map (fun j => outcome (batchStart bsize i + j))

/-- A per-batch summary pushed onto `results.batchResults`
(client.ts 178-182). -/
structure BatchSummary where
  batchNumber : Nat
  successful : Nat
  failed : Nat
  deriving DecidableEq, Repr

/-- The aggregate return value of `createBulkSessions` (client.ts 50-61). -/
structure BulkResults where
  successful : List SuccessRec
  failed : List FailureRec
  batchResults : List BatchSummary
  deriving DecidableEq, Repr

/-- One iteration of the sequential batch loop (client.ts 89-194): the batch's
settled attempts are accounted, the global lists are extended and the batch
summary appended.  The inter-batch delay has no state effect. -/
def runOneBatch (outcome : Nat → Settled) (count bsize : Nat)
    (res : BulkResults) (i : Nat) : BulkResults :=
  let bf := processBatch (batchSettled outcome count bsize i)
  { successful := res.successful ++ bf.successful
    failed := res.failed ++ bf.failed
    batchResults := res.batchResults ++
      [{ batchNumber := i + 1, successful := bf.batchSuccessful, failed := bf.batchFailed }] }

/-- The full batch loop of `createBulkSessions` (client.ts 89-199) with the
given attempt outcomes. -/
def runBatches (outcome : Nat → Settled) (count bsize : Nat) : BulkResults :=
  (List.range (totalBatches count bsize)).foldl (runOneBatch outcome count bsize)
    { successful := [], failed := [], batchResults := [] }

/-! ## Session registry (sessionManager.ts) -/

/-- A `TzafonWrightClient` as the registry sees it: an identity, the
`isConnected` (established) flag, and whether its `close()` would throw.  The
last field only parameterizes failure scenarios; every call site of `close()`
in the registry and store catches and logs the exception, so it never changes
the reachable state. -/
structure TWClient where
  id : Nat
  isConnected : Bool
  closeThrows : Bool
  deriving DecidableEq, Repr

/-- A `BrowserSession` entry (types.ts 18-21).  The `client` field is typed as
always present in TypeScript, but the registry code guards it with JavaScript
truthiness checks (sessionManager.ts 131 and 211), so it is modelled as
optional. -/
structure BrowserSession where
  client : Option TWClient
  sessionId : String
  deriving DecidableEq, Repr

/-- The distinguished default session id (sessionManager.ts 12), computed once
per process. -/
def defaultSessionId : String := "tzafonwright_session_main"

/-- Lookup in a string-keyed association list, modelling `Map.get`. -/
def mapGet {β : Type} : List (String × β) → String → Option β
  | [], _ => none
  | (k, v) :: rest, key => if k = key then some v else mapGet rest key

/-- Update-or-append in a string-keyed association list, modelling `Map.set`. -/
def mapSet {β : Type} : List (String × β) → String → β → List (String × β)
  | [], key, v => [(key, v)]
  | (k, v0) :: rest, key, v =>
    if k = key then (key, v) :: rest else (k, v0) :: mapSet rest key v

/-- Removal from a string-keyed association list, modelling `Map.delete`. -/
def mapDelete {β : Type} (m : List (String × β)) (key : String) : List (String × β) :=
  m.filter (fun p => !(p.1 == key))

/-- The module-level mutable state of sessionManager.ts (lines 6-15): the
`browsers` map, the explicit default-session slot, the active session id, plus
an event log of the ids of clients on which `close()` has been invoked. -/
structure SMState where
  browsers : List (String × BrowserSession)
  defaultBrowserSession : Option BrowserSession
  activeSessionId : String
  closedClients : List Nat
  deriving DecidableEq, Repr

/-- `setActiveSessionId` (sessionManager.ts 21-29): the id is adopted only if
present in the map or equal to the default id; otherwise the request is logged
and ignored. -/
def setActiveSessionId (s : SMState) (id : String) : SMState :=
  if (mapGet s.browsers id).isSome || id = defaultSessionId then
    { s with activeSessionId := id }
  else s

/-- `closeBrowserGracefully` (sessionManager.ts 95-117): invokes `close()` on
the session's client when one is present; any exception from `close()` is
caught and logged (lines 109-115), so the resulting state does not depend on
`closeThrows`. -/
def closeBrowserGracefully (s : SMState) (sess : Option BrowserSession) : SMState :=
  match sess with
  | some b =>
    match b.client with
    | some c => { s with closedClients := s.closedClients ++ [c.id] }
    | none => s
  | none => s

/-- `createNewBrowserSession` (sessionManager.ts 40-93), parameterized by the
outcome of `createTzafonWrightClient`: `some c` when the connect succeeds and
yields client `c`, `none` when it throws.  On success the session is stored in
the map (unconditionally overwriting any previous entry for the id), the
default slot is updated when the id is the default id, and the session is made
active; on failure the state is unchanged and the error propagates (`none`
result). -/
def createNewBrowserSession (s : SMState) (newSessionId : String)
    (newClient : Option TWClient) : SMState × Option BrowserSession :=
  match newClient with
  | none => (s, none)
  | some c =>
    let sessionObj : BrowserSession := { client := some c, sessionId := newSessionId }
    let s1 := { s with browsers := mapSet s.browsers newSessionId sessionObj }
    let s2 :=
      if newSessionId = defaultSessionId then
        { s1 with defaultBrowserSession := some sessionObj }
      else s1
    (setActiveSessionId s2 newSessionId, some sessionObj)

/-- Result of `ensureDefaultSessionInternal`: the final state, the returned
session (`none` models the function throwing after both creation attempts
failed), and how many times `createNewBrowserSession` was invoked. -/
structure EnsureOut where
  state : SMState
  result : Option BrowserSession
  attemptsMade : Nat
  deriving DecidableEq, Repr

/-- The creation path of `ensureDefaultSessionInternal`
(sessionManager.ts 141-175): one attempt, and on failure exactly one retry;
the second failure surfaces the error. -/
def ensureCreate (s : SMState) (a1 a2 : Option TWClient) : EnsureOut :=
  match createNewBrowserSession s defaultSessionId a1 with
  | (s1, some sess) =>
    { state := { s1 with defaultBrowserSession := some sess }, result := some sess
      attemptsMade := 1 }
  | (s1, none) =>
    match createNewBrowserSession s1 defaultSessionId a2 with
    | (s2, some sess) =>
      { state := { s2 with defaultBrowserSession := some sess }, result := some sess
        attemptsMade := 2 }
    | (s2, none) => { state := s2, result := none, attemptsMade := 2 }

/-- The staleness test of `ensureDefaultSessionInternal`
(sessionManager.ts 126-139): recreation is needed when there is no default
session, or when the default session's `client` field is absent.  The
`isConnected` flag is never consulted. -/
def needsReCreation (s : SMState) : Bool :=
  match s.defaultBrowserSession with
  | none => true
  | some d => d.client.isNone

/-- `ensureDefaultSessionInternal` (sessionManager.ts 120-180), parameterized
by the outcomes of the at most two `createNewBrowserSession` attempts. -/
def ensureDefaultSessionInternal (s : SMState) (a1 a2 : Option TWClient) : EnsureOut :=
  match s.defaultBrowserSession with
  | none => ensureCreate s a1 a2
  | some dbs =>
    match dbs.client with
    | none =>
      let s1 := closeBrowserGracefully s (some dbs)
      let s2 := { s1 with
        defaultBrowserSession := none
        browsers := mapDelete s1.browsers defaultSessionId }
      ensureCreate s2 a1 a2
    | some _ =>
      { state := setActiveSessionId s defaultSessionId, result := some dbs
        attemptsMade := 0 }

/-- The tail of `cleanupSession` after the graceful close
(sessionManager.ts 246-260): delete the map entry, clear the default slot
when the default id with a set slot is being cleaned, and reset the active id
to the default id when the cleaned id was active. -/
def cleanupTail (t : SMState) (sessionId : String) : SMState :=
  let s2 := { t with browsers := mapDelete t.browsers sessionId }
  let s3 :=
    if sessionId = defaultSessionId && s2.defaultBrowserSession.isSome then
      { s2 with defaultBrowserSession := none }
    else s2
  if s3.activeSessionId = sessionId then setActiveSessionId s3 defaultSessionId else s3

/-- `cleanupSession` (sessionManager.ts 237-261): close the session's client
gracefully if the id is tracked, then run the map/slot/active cleanup tail. -/
def cleanupSession (s : SMState) (sessionId : String) : SMState :=
  cleanupTail
    (match mapGet s.browsers sessionId with
     | some sess => closeBrowserGracefully s (some sess)
     | none => s) sessionId

/-- `closeAllSessions` (sessionManager.ts 264-287): close every tracked
session's client (errors caught individually), clear the map, null the default
slot and reset the active id to the default id. -/
def closeAllSessions (s : SMState) : SMState :=
  let s1 := s.browsers.foldl (fun acc p => closeBrowserGracefully acc (some p.2)) s
  setActiveSessionId
    { s1 with browsers := [], defaultBrowserSession := none } defaultSessionId

/-! ## Session store (tzafonwrightStore.ts) -/

/-- A `TzafonWrightSession` (types.ts 6-11); the client is always present. -/
structure TWSession where
  id : String
  client : TWClient
  created : Nat
  deriving DecidableEq, Repr

/-- The module-level store map (tzafonwrightStore.ts 7) with the same
close-invocation log as the registry model. -/
structure StoreState where
  store : List (String × TWSession)
  closedClients : List Nat
  deriving DecidableEq, Repr

/-- `remove` (tzafonwrightStore.ts 93-116): a missing id is a no-op; otherwise
`close()` is attempted, its exception (if any) caught and logged, and the
entry is deleted in the `finally` block — so deletion happens even when the
close throws. -/
def storeRemove (st : StoreState) (id : String) : StoreState :=
  match mapGet st.store id with
  | none => st
  | some sess =>
    { store := mapDelete st.store id
      closedClients := st.closedClients ++ [sess.client.id] }

/-- `removeAll` (tzafonwrightStore.ts 121-127): removes every listed session.
The promises run on the single-threaded event loop; each `remove` mutates the
map without an intervening suspension between lookup and delete, so the net
effect is the fold of `remove` over the listed ids. -/
def storeRemoveAll (st : StoreState) : StoreState :=
  (st.store.map Prod.fst).foldl storeRemove st

/-! ## Shutdown coordinator (program.ts, `setupExitWatchdog`) -/

/-- The process state the exit watchdog's cleanup touches: the session
registry and the store. -/
structure AppState where
  registry : SMState
  store : StoreState
  deriving DecidableEq, Repr

/-- Modelled from the spec: `ServerList.closeAll`, whose source
(src/server.ts) is not among the provided files.  The spec's shutdown design
states that the coordinator closes every tracked Connection via the registry's
removeAll (`closeAllSessions`), in parallel with the store-level cleanup. -/
def serverListCloseAll (s : SMState) : SMState := closeAllSessions s

/-- The cleanup of `handleExit` (program.ts 213-221):
`Promise.all([tzafonwrightStore.removeAll(), serverList.closeAll()])`.  The
two arms act on disjoint components of the state, so their parallel execution
equals applying both, in either order; errors are caught and never block
termination. -/
def handleExitCleanup (a : AppState) : AppState :=
  { registry := serverListCloseAll a.registry, store := storeRemoveAll a.store }

/-! ## Claim C10: the wire timeout default supplants every falsy value -/

/-- C10: for every command whose timeout field is explicitly 0, the serialized
wire frame carries timeout 30000; the 30000 default also replaces an absent
timeout, and no wire frame can carry timeout 0 (client.ts 249:
`timeout: command.timeout || 30000`). -/
theorem C10_zeroTimeoutSupplanted (c : Command) :
    (c.timeout = some 0 → (commandData c).timeout = 30000)
    ∧ (c.timeout = none → (commandData c).timeout = 30000)
    ∧ (commandData c).timeout ≠ 0 := by
  refine ⟨fun h => ?_, fun h => ?_, ?_⟩
  · simp [commandData, jsNumOrDefault, h]
  · simp [commandData, jsNumOrDefault, h]
  · cases h : c.timeout with
    | none => simp [commandData, jsNumOrDefault, h]
    | some n =>
      by_cases hn : n = 0 <;> simp [commandData, jsNumOrDefault, h, hn]

/-- Witness for C10 at a concrete command with timeout explicitly 0. -/
theorem C10_zeroTimeoutSupplanted_witness :
    (commandData { action_type := .goto, timeout := some 0 }).timeout = 30000 :=
  (C10_zeroTimeoutSupplanted { action_type := .goto, timeout := some 0 }).1 rfl

/-! ## Claim C1: no single-flight protection exists in `sendAction` -/

/-- C1: evaluation of the embedded `sendAction` at the failing input.  On a
connected client, a second call issued before the first call's response is
neither rejected nor queued: it attaches a second message handler, and the
first inbound response frame settles both pending calls with that same
response (the second frame settles nobody).  The second call's response is
thus attributed to the wrong caller, which the claim says must be prevented. -/
theorem C1_secondCallNotSerialized :
    sendActionStart { wsExists := true, isConnected := true, listeners := [] } 0
      = .attached { wsExists := true, isConnected := true, listeners := [0] }
    ∧ sendActionStart { wsExists := true, isConnected := true, listeners := [0] } 1
      = .attached { wsExists := true, isConnected := true, listeners := [0, 1] }
    ∧ runFrames { wsExists := true, isConnected := true, listeners := [0, 1] }
        [.ok { success := true, error_message := none, image := none },
         .ok { success := false, error_message := some "responseB", image := none }]
      = ({ wsExists := true, isConnected := true, listeners := [] },
         [(0, .ok { success := true, error_message := none, image := none }),
          (1, .ok { success := true, error_message := none, image := none })]) :=
  ⟨rfl, rfl, rfl⟩

/-! ## Claim C2: listener lifecycle and the missing local deadline -/

/-- C2 counterexample: on a connected client, a call that never receives a
response never settles at all — `sendAction` arms no timer, so no Timeout
error is ever produced, contradicting the claim that the call fails with a
Timeout error within its deadline instead of waiting forever. -/
theorem C2_noTimeout_counterexample :
    sendActionOutcome { wsExists := true, isConnected := true, listeners := [] } 0 [] = none
    ∧ sendActionStart { wsExists := true, isConnected := true, listeners := [] } 0
      = .attached { wsExists := true, isConnected := true, listeners := [0] } :=
  ⟨rfl, rfl⟩

/-- C2 amended: for every call issued on an open Connection, exactly one
listener for the next inbound message is attached, and it is detached upon
receiving that message — settling the call with that message's parse (a parse
failure rejects instead) — but there is no local deadline: with no inbound
message the call never settles, and the timeout value is only forwarded to
the remote inside the frame. -/
theorem C2_listenerLifecycle (s : ClientState) (cid : Nat) (f : Frame)
    (hw : s.wsExists = true) (hc : s.isConnected = true) :
    sendActionStart s cid = .attached { s with listeners := s.listeners ++ [cid] }
    ∧ (s.listeners = [] →
        deliverMessage { s with listeners := s.listeners ++ [cid] } f
          = ({ s with listeners := [] }, [(cid, parseFrame f)]))
    ∧ sendActionOutcome s cid [] = none := by
  refine ⟨?_, fun h => ?_, ?_⟩
  · simp [sendActionStart, hw, hc]
  · simp [deliverMessage, h]
  · simp [sendActionOutcome, sendActionStart, hw, hc, runFrames]

/-- Witness for C2 at a concrete connected client and frame. -/
theorem C2_listenerLifecycle_witness :
    sendActionStart { wsExists := true, isConnected := true, listeners := [] } 7
      = .attached { wsExists := true, isConnected := true, listeners := [7] }
    ∧ deliverMessage { wsExists := true, isConnected := true, listeners := [7] }
        (.ok { success := true, error_message := none, image := none })
      = ({ wsExists := true, isConnected := true, listeners := [] },
         [(7, .ok { success := true, error_message := none, image := none })]) := by
  have h := C2_listenerLifecycle
    { wsExists := true, isConnected := true, listeners := [] } 7
    (.ok { success := true, error_message := none, image := none }) rfl rfl
  exact ⟨h.1, h.2.1 rfl⟩

/-! ## Claim C6: batch partition arithmetic -/

/-- Partial sums of the batch sizes telescope to `min (n * bsize) count`. -/
theorem batch_partial_sum (count bsize : Nat) :
    ∀ n, ((List.range n).map (batchCountAt count bsize)).sum = min (n * bsize) count := by
  intro n
  induction n with
  | zero => simp
  | succ k ih =>
    rw [List.range_succ, List.map_append, List.sum_append, ih]
    simp only [List.map_cons, List.map_nil, List.sum_cons, List.sum_nil,
      batchCountAt, batchEnd, batchStart, Nat.succ_mul]
    omega

/-- The batch count covers `count`: `totalBatches * bsize` is at least
`count`. -/
theorem count_le_totalBatches_mul (count bsize : Nat) (hb : 1 ≤ bsize) :
    count ≤ totalBatches count bsize * bsize := by
  rw [totalBatches]
  have hd := Nat.div_add_mod (count + bsize - 1) bsize
  have hm : (count + bsize - 1) % bsize < bsize := Nat.mod_lt _ hb
  generalize hq : (count + bsize - 1) / bsize = q at hd ⊢
  generalize hr : (count + bsize - 1) % bsize = r at hd hm
  have hcm : q * bsize = bsize * q := Nat.mul_comm _ _
  omega

/-- The batch count is minimal: one batch fewer would not cover `count`. -/
theorem totalBatches_pred_mul_lt (count bsize : Nat) (hb : 1 ≤ bsize) (hc : 1 ≤ count) :
    (totalBatches count bsize - 1) * bsize < count := by
  rw [totalBatches]
  have hd := Nat.div_add_mod (count + bsize - 1) bsize
  generalize hq : (count + bsize - 1) / bsize = q at hd ⊢
  generalize hr : (count + bsize - 1) % bsize = r at hd
  have hsub : (q - 1) * bsize = q * bsize - bsize := by
    rw [Nat.sub_mul, Nat.one_mul]
  have hcm : q * bsize = bsize * q := Nat.mul_comm _ _
  omega

/-- The batch sizes sum to `count`. -/
theorem batchSizes_sum (count bsize : Nat) (hb : 1 ≤ bsize) :
    (batchSizes count bsize).sum = count := by
  rw [batchSizes, batch_partial_sum]
  have := count_le_totalBatches_mul count bsize hb
  omega

/-- C6: for every count ≥ 1 and batch size ≥ 1, the loop of
`createBulkSessions` partitions `count` into exactly
`totalBatches = ceil(count / bsize)` batches (the last two conjuncts on
`totalBatches` characterize it as that ceiling), each of size at most
`bsize`, summing to `count`; the default batch size is `min 5 count`; and
`count = 13`, `bsize = 5` yields the batches `[5, 5, 3]`. -/
theorem C6_batchPartition (count bsize : Nat) (hc : 1 ≤ count) (hb : 1 ≤ bsize) :
    (batchSizes count bsize).length = totalBatches count bsize
    ∧ (batchSizes count bsize).sum = count
    ∧ (∀ sz ∈ batchSizes count bsize, sz ≤ bsize)
    ∧ count ≤ totalBatches count bsize * bsize
    ∧ (totalBatches count bsize - 1) * bsize < count
    ∧ defaultBatchSize count = min 5 count
    ∧ batchSizes 13 5 = [5, 5, 3] := by
  refine ⟨by simp [batchSizes], batchSizes_sum count bsize hb, ?_,
    count_le_totalBatches_mul count bsize hb,
    totalBatches_pred_mul_lt count bsize hb hc, rfl, by decide⟩
  intro sz hsz
  simp only [batchSizes, List.mem_map, List.mem_range] at hsz
  obtain ⟨i, _, rfl⟩ := hsz
  simp only [batchCountAt, batchEnd, batchStart]
  omega

/-- Witness for C6 at `count = 13`, `bsize = 5`. -/
theorem C6_batchPartition_witness :
    batchSizes 13 5 = [5, 5, 3] ∧ (batchSizes 13 5).sum = 13 :=
  ⟨(C6_batchPartition 13 5 (by decide) (by decide)).2.2.2.2.2.2,
   (C6_batchPartition 13 5 (by decide) (by decide)).2.1⟩

/-! ## Claim C7: bulk accounting -/

/-- Fold invariant of the accounting `forEach`: each settled result bumps
exactly one counter and pushes exactly one record. -/
theorem recordResult_foldl_counts (l : List Settled) : ∀ st : BatchFold,
    ((l.foldl recordResult st).batchSuccessful + (l.foldl recordResult st).batchFailed
        = st.batchSuccessful + st.batchFailed + l.length)
    ∧ ((l.foldl recordResult st).successful.length + st.batchSuccessful
        = st.successful.length + (l.foldl recordResult st).batchSuccessful)
    ∧ ((l.foldl recordResult st).failed.length + st.batchFailed
        = st.failed.length + (l.foldl recordResult st).batchFailed) := by
  induction l with
  | nil => intro st; simp
  | cons r rest ih =>
    intro st
    have h := ih (recordResult st r)
    have hcase :
        ((recordResult st r).batchSuccessful + (recordResult st r).batchFailed
            = st.batchSuccessful + st.batchFailed + 1)
        ∧ ((recordResult st r).successful.length
            = st.successful.length + ((recordResult st r).batchSuccessful - st.batchSuccessful))
        ∧ ((recordResult st r).batchFailed - st.batchFailed ≤ 1)
        ∧ ((recordResult st r).batchSuccessful - st.batchSuccessful ≤ 1)
        ∧ (st.batchSuccessful ≤ (recordResult st r).batchSuccessful)
        ∧ (st.batchFailed ≤ (recordResult st r).batchFailed)
        ∧ ((recordResult st r).failed.length
            = st.failed.length + ((recordResult st r).batchFailed - st.batchFailed)) := by
      cases r with
      | fulfilled v =>
        by_cases hv : valueAccepted v = true <;> simp [recordResult, hv] <;> omega
      | rejected reason =>
        simp [recordResult]
        omega
    simp only [List.foldl_cons] at *
    simp only [List.length_cons]
    omega

/-- Per-batch accounting: counts match the list lengths and sum to the number
of attempts. -/
theorem processBatch_counts (settled : List Settled) :
    (processBatch settled).batchSuccessful + (processBatch settled).batchFailed = settled.length
    ∧ (processBatch settled).successful.length = (processBatch settled).batchSuccessful
    ∧ (processBatch settled).failed.length = (processBatch settled).batchFailed := by
  have h := recordResult_foldl_counts settled
    { successful := [], failed := [], batchSuccessful := 0, batchFailed := 0 }
  simp only [processBatch]
  simp at h
  omega

/-- Closed form of the sequential batch loop. -/
theorem runBatches_foldl_closed (outcome : Nat → Settled) (count bsize : Nat) :
    ∀ (idxs : List Nat) (res : BulkResults),
      idxs.foldl (runOneBatch outcome count bsize) res
        = { successful := res.successful ++
              (idxs.map (fun i =>
                (processBatch (batchSettled outcome count bsize i)).successful)).flatten
            failed := res.failed ++
              (idxs.map (fun i =>
                (processBatch (batchSettled outcome count bsize i)).failed)).flatten
            batchResults := res.batchResults ++
              idxs.map (fun i =>
                { batchNumber := i + 1
                  successful := (processBatch (batchSettled outcome count bsize i)).batchSuccessful
                  failed := (processBatch (batchSettled outcome count bsize i)).batchFailed }) } := by
  intro idxs
  induction idxs with
  | nil => intro res; simp
  | cons i rest ih =>
    intro res
    simp only [List.foldl_cons, List.map_cons, List.flatten_cons]
    rw [ih]
    simp [runOneBatch, List.append_assoc]

/-- Sums of pointwise sums split. -/
theorem sum_map_add {α : Type} (l : List α) (f g : α → Nat) :
    (l.map (fun a => f a + g a)).sum = (l.map f).sum + (l.map g).sum := by
  induction l with
  | nil => simp
  | cons a rest ih =>
    simp only [List.map_cons, List.sum_cons, ih]
    omega

/-- C7: in every bulk-provisioning run, every attempt is accounted exactly
once: each batch summary's successful plus failed counts equal the number of
attempts in that batch, the per-batch counts sum to the lengths of the overall
successes and failures lists, and those lengths sum to `count`. -/
theorem C7_bulkAccounting (count bsize : Nat) (outcome : Nat → Settled) (hb : 1 ≤ bsize) :
    ((runBatches outcome count bsize).batchResults.length = totalBatches count bsize)
    ∧ (∀ j, (hj : j < (runBatches outcome count bsize).batchResults.length) →
        ((runBatches outcome count bsize).batchResults.get ⟨j, hj⟩).successful
          + ((runBatches outcome count bsize).batchResults.get ⟨j, hj⟩).failed
          = batchCountAt count bsize j)
    ∧ (((runBatches outcome count bsize).batchResults.map BatchSummary.successful).sum
        = (runBatches outcome count bsize).successful.length)
    ∧ (((runBatches outcome count bsize).batchResults.map BatchSummary.failed).sum
        = (runBatches outcome count bsize).failed.length)
    ∧ ((runBatches outcome count bsize).successful.length
        + (runBatches outcome count bsize).failed.length = count) := by
  have hclosed := runBatches_foldl_closed outcome count bsize
    (List.range (totalBatches count bsize))
    { successful := [], failed := [], batchResults := [] }
  rw [runBatches, hclosed]
  simp only [List.nil_append]
  have hlen : ∀ i, (batchSettled outcome count bsize i).length = batchCountAt count bsize i := by
    intro i; simp [batchSettled]
  refine ⟨by simp, ?_, ?_, ?_, ?_⟩
  · intro j hj
    simp only [List.length_map, List.length_range] at hj
    simp only [List.get_eq_getElem, List.getElem_map, List.getElem_range]
    have hp := processBatch_counts (batchSettled outcome count bsize j)
    rw [hlen j] at hp
    exact hp.1
  · simp only [List.map_map, List.length_flatten, Function.comp_def]
    apply congrArg List.sum
    apply List.map_congr_left
    intro i _
    exact ((processBatch_counts (batchSettled outcome count bsize i)).2.1).symm
  · simp only [List.map_map, List.length_flatten, Function.comp_def]
    apply congrArg List.sum
    apply List.map_congr_left
    intro i _
    exact ((processBatch_counts (batchSettled outcome count bsize i)).2.2).symm
  · simp only [List.length_flatten, List.map_map, Function.comp_def]
    rw [← sum_map_add]
    have hcongr : (List.range (totalBatches count bsize)).map
        (fun i => (processBatch (batchSettled outcome count bsize i)).successful.length
          + (processBatch (batchSettled outcome count bsize i)).failed.length)
        = (List.range (totalBatches count bsize)).map (batchCountAt count bsize) := by
      apply List.map_congr_left
      intro i _
      have hp := processBatch_counts (batchSettled outcome count bsize i)
      rw [hp.2.1, hp.2.2, hp.1, hlen i]
    rw [hcongr]
    have := batchSizes_sum count bsize hb
    rw [batchSizes] at this
    exact this

/-- Witness for C7 at `count = 3`, `bsize = 2` with one succeeding and two
failing attempts. -/
theorem C7_bulkAccounting_witness :
    (runBatches (fun i =>
        if i = 0 then
          .fulfilled { success := true, client := some 1, sessionId := some "sid",
                       name := some "session-1", error := none }
        else
          .fulfilled { success := false, client := none, sessionId := none,
                       name := some "session-x", error := some "Connection timeout" })
      3 2).successful.length
    + (runBatches (fun i =>
        if i = 0 then
          .fulfilled { success := true, client := some 1, sessionId := some "sid",
                       name := some "session-1", error := none }
        else
          .fulfilled { success := false, client := none, sessionId := none,
                       name := some "session-x", error := some "Connection timeout" })
      3 2).failed.length = 3 :=
  (C7_bulkAccounting 3 2 _ (by decide)).2.2.2.2

/-! ## Registry helper lemmas -/

/-- Setting a key makes it retrievable. -/
theorem mapGet_mapSet_self {β : Type} (m : List (String × β)) (k : String) (v : β) :
    mapGet (mapSet m k v) k = some v := by
  induction m with
  | nil => simp [mapSet, mapGet]
  | cons p rest ih =>
    obtain ⟨k0, v0⟩ := p
    by_cases h : k0 = k
    · simp [mapSet, mapGet, h]
    · simp [mapSet, mapGet, h, ih]

/-- Deleting a key removes it. -/
theorem mapGet_mapDelete_self {β : Type} (m : List (String × β)) (k : String) :
    mapGet (mapDelete m k) k = none := by
  induction m with
  | nil => rfl
  | cons p rest ih =>
    obtain ⟨k0, v0⟩ := p
    simp only [mapDelete, List.filter_cons] at *
    by_cases h : k0 = k
    · simpa [h] using ih
    · simpa [h, mapGet] using ih

/-- `setActiveSessionId` changes no field but the active id. -/
theorem setActive_proj (s : SMState) (i : String) :
    (setActiveSessionId s i).browsers = s.browsers
    ∧ (setActiveSessionId s i).defaultBrowserSession = s.defaultBrowserSession
    ∧ (setActiveSessionId s i).closedClients = s.closedClients := by
  unfold setActiveSessionId
  split <;> simp

/-- Setting the default id as active always succeeds. -/
theorem setActive_default_active (s : SMState) :
    (setActiveSessionId s defaultSessionId).activeSessionId = defaultSessionId := by
  simp [setActiveSessionId]

/-- `closeBrowserGracefully` changes no field but the close log. -/
theorem closeGrace_proj (s : SMState) (o : Option BrowserSession) :
    (closeBrowserGracefully s o).browsers = s.browsers
    ∧ (closeBrowserGracefully s o).defaultBrowserSession = s.defaultBrowserSession
    ∧ (closeBrowserGracefully s o).activeSessionId = s.activeSessionId := by
  cases o with
  | none => exact ⟨rfl, rfl, rfl⟩
  | some b => cases hb : b.client <;> simp [closeBrowserGracefully, hb]

/-- The close log only grows under `closeBrowserGracefully`. -/
theorem closeGrace_closed_mono (s : SMState) (o : Option BrowserSession) (x : Nat)
    (hx : x ∈ s.closedClients) : x ∈ (closeBrowserGracefully s o).closedClients := by
  cases o with
  | none => exact hx
  | some b => cases hb : b.client <;> simp [closeBrowserGracefully, hb, hx]

/-- A session with a present client gets its client's close invoked. -/
theorem closeGrace_closes (s : SMState) (b : BrowserSession) (c : TWClient)
    (hc : b.client = some c) : c.id ∈ (closeBrowserGracefully s (some b)).closedClients := by
  simp [closeBrowserGracefully, hc]

/-- Pointwise projection equations, convenient as rewrite rules. -/
theorem closeGrace_browsers_eq (s : SMState) (o : Option BrowserSession) :
    (closeBrowserGracefully s o).browsers = s.browsers := (closeGrace_proj s o).1

/-- The default slot is unchanged by a graceful close. -/
theorem closeGrace_default_eq (s : SMState) (o : Option BrowserSession) :
    (closeBrowserGracefully s o).defaultBrowserSession = s.defaultBrowserSession :=
  (closeGrace_proj s o).2.1

/-- The active id is unchanged by a graceful close. -/
theorem closeGrace_active_eq (s : SMState) (o : Option BrowserSession) :
    (closeBrowserGracefully s o).activeSessionId = s.activeSessionId :=
  (closeGrace_proj s o).2.2

/-- The map is unchanged by `setActiveSessionId`. -/
theorem setActive_browsers_eq (s : SMState) (i : String) :
    (setActiveSessionId s i).browsers = s.browsers := (setActive_proj s i).1

/-- The default slot is unchanged by `setActiveSessionId`. -/
theorem setActive_default_eq (s : SMState) (i : String) :
    (setActiveSessionId s i).defaultBrowserSession = s.defaultBrowserSession :=
  (setActive_proj s i).2.1

/-- The close log is unchanged by `setActiveSessionId`. -/
theorem setActive_closed_eq (s : SMState) (i : String) :
    (setActiveSessionId s i).closedClients = s.closedClients := (setActive_proj s i).2.2

/-! ## Claim C4: staleness detection of the default session -/

/-- C4 counterexample: a default session whose client is present but whose
`isConnected` (established) flag is false — the state after an unexpected
close (client.ts 219-222) — is NOT detected as stale: `ensureDefault`
returns the very same stale session, makes no creation attempt, closes
nothing and leaves the stale map entry in place, even though fresh clients
were available. -/
theorem C4_staleFlagIgnored_counterexample :
    (ensureDefaultSessionInternal
      { browsers := [(defaultSessionId,
          { client := some { id := 7, isConnected := false, closeThrows := false },
            sessionId := defaultSessionId })]
        defaultBrowserSession := some
          { client := some { id := 7, isConnected := false, closeThrows := false },
            sessionId := defaultSessionId }
        activeSessionId := defaultSessionId
        closedClients := [] }
      (some { id := 8, isConnected := true, closeThrows := false })
      (some { id := 8, isConnected := true, closeThrows := false })).result
      = some { client := some { id := 7, isConnected := false, closeThrows := false },
               sessionId := defaultSessionId }
    ∧ (ensureDefaultSessionInternal
      { browsers := [(defaultSessionId,
          { client := some { id := 7, isConnected := false, closeThrows := false },
            sessionId := defaultSessionId })]
        defaultBrowserSession := some
          { client := some { id := 7, isConnected := false, closeThrows := false },
            sessionId := defaultSessionId }
        activeSessionId := defaultSessionId
        closedClients := [] }
      (some { id := 8, isConnected := true, closeThrows := false })
      (some { id := 8, isConnected := true, closeThrows := false })).attemptsMade = 0
    ∧ (ensureDefaultSessionInternal
      { browsers := [(defaultSessionId,
          { client := some { id := 7, isConnected := false, closeThrows := false },
            sessionId := defaultSessionId })]
        defaultBrowserSession := some
          { client := some { id := 7, isConnected := false, closeThrows := false },
            sessionId := defaultSessionId }
        activeSessionId := defaultSessionId
        closedClients := [] }
      (some { id := 8, isConnected := true, closeThrows := false })
      (some { id := 8, isConnected := true, closeThrows := false })).state.closedClients
      = [] := by
  exact ⟨rfl, rfl, rfl⟩

/-- C4 amended: staleness of the default session is detected only when its
`client` reference is absent; in that case the entry is evicted (there is no
client to close) and a fresh session is created from the first successful
attempt, stored, made default and active. -/
theorem C4_staleEvictionOnMissingClient (s : SMState) (dbs : BrowserSession)
    (c : TWClient) (a2 : Option TWClient)
    (hdef : s.defaultBrowserSession = some dbs) (hcl : dbs.client = none) :
    (ensureDefaultSessionInternal s (some c) a2).result
      = some { client := some c, sessionId := defaultSessionId }
    ∧ (ensureDefaultSessionInternal s (some c) a2).attemptsMade = 1
    ∧ mapGet (ensureDefaultSessionInternal s (some c) a2).state.browsers defaultSessionId
      = some { client := some c, sessionId := defaultSessionId }
    ∧ (ensureDefaultSessionInternal s (some c) a2).state.defaultBrowserSession
      = some { client := some c, sessionId := defaultSessionId }
    ∧ (ensureDefaultSessionInternal s (some c) a2).state.activeSessionId
      = defaultSessionId := by
  have h3 : mapGet (ensureDefaultSessionInternal s (some c) a2).state.browsers defaultSessionId
      = some { client := some c, sessionId := defaultSessionId } := by
    simp only [ensureDefaultSessionInternal, hdef, hcl, closeBrowserGracefully,
      ensureCreate, createNewBrowserSession]
    rw [(setActive_proj _ _).1]
    exact mapGet_mapSet_self _ _ _
  have h5 : (ensureDefaultSessionInternal s (some c) a2).state.activeSessionId
      = defaultSessionId := by
    simp only [ensureDefaultSessionInternal, hdef, hcl, closeBrowserGracefully,
      ensureCreate, createNewBrowserSession]
    exact setActive_default_active _
  refine ⟨?_, ?_, h3, ?_, h5⟩ <;>
    simp [ensureDefaultSessionInternal, hdef, hcl, closeBrowserGracefully,
      ensureCreate, createNewBrowserSession]

/-- Witness for C4's amended theorem at a concrete stale state. -/
theorem C4_staleEvictionOnMissingClient_witness :
    (ensureDefaultSessionInternal
      { browsers := [(defaultSessionId, { client := none, sessionId := defaultSessionId })]
        defaultBrowserSession := some { client := none, sessionId := defaultSessionId }
        activeSessionId := defaultSessionId
        closedClients := [] }
      (some { id := 9, isConnected := true, closeThrows := false }) none).result
      = some { client := some { id := 9, isConnected := true, closeThrows := false },
               sessionId := defaultSessionId }
    ∧ (ensureDefaultSessionInternal
      { browsers := [(defaultSessionId, { client := none, sessionId := defaultSessionId })]
        defaultBrowserSession := some { client := none, sessionId := defaultSessionId }
        activeSessionId := defaultSessionId
        closedClients := [] }
      (some { id := 9, isConnected := true, closeThrows := false }) none).attemptsMade = 1 := by
  have h := C4_staleEvictionOnMissingClient
    { browsers := [(defaultSessionId, { client := none, sessionId := defaultSessionId })]
      defaultBrowserSession := some { client := none, sessionId := defaultSessionId }
      activeSessionId := defaultSessionId
      closedClients := [] }
    { client := none, sessionId := defaultSessionId }
    { id := 9, isConnected := true, closeThrows := false } none rfl rfl
  exact ⟨h.1, h.2.1⟩

/-! ## Claim C5: exactly one creation retry for the default session -/

/-- C5: `ensureDefaultSessionInternal` makes at most two creation attempts; a
healthy default makes none; when recreation is needed, the error surfaces
exactly when both attempts fail, a first-attempt failure leads to exactly one
retry, and whichever attempt succeeds has its session returned and marked
active. -/
theorem C5_singleRetry (s : SMState) (a1 a2 : Option TWClient) :
    (ensureDefaultSessionInternal s a1 a2).attemptsMade ≤ 2
    ∧ (needsReCreation s = false → (ensureDefaultSessionInternal s a1 a2).attemptsMade = 0)
    ∧ (needsReCreation s = true →
        ((ensureDefaultSessionInternal s a1 a2).result = none ↔ a1 = none ∧ a2 = none))
    ∧ (needsReCreation s = true → a1 = none →
        (ensureDefaultSessionInternal s a1 a2).attemptsMade = 2
        ∧ ∀ c, a2 = some c →
            (ensureDefaultSessionInternal s a1 a2).result
              = some { client := some c, sessionId := defaultSessionId }
            ∧ (ensureDefaultSessionInternal s a1 a2).state.activeSessionId
              = defaultSessionId)
    ∧ (needsReCreation s = true → ∀ c, a1 = some c →
        (ensureDefaultSessionInternal s a1 a2).attemptsMade = 1
        ∧ (ensureDefaultSessionInternal s a1 a2).result
            = some { client := some c, sessionId := defaultSessionId }
        ∧ (ensureDefaultSessionInternal s a1 a2).state.activeSessionId
            = defaultSessionId) := by
  cases hd : s.defaultBrowserSession with
  | none =>
    cases a1 <;> cases a2 <;>
      simp [ensureDefaultSessionInternal, needsReCreation, hd, ensureCreate,
        createNewBrowserSession, setActive_default_active]
  | some dbs =>
    cases hc : dbs.client with
    | none =>
      cases a1 <;> cases a2 <;>
        simp [ensureDefaultSessionInternal, needsReCreation, hd, hc, ensureCreate,
          createNewBrowserSession, closeBrowserGracefully, setActive_default_active]
    | some c0 =>
      simp [ensureDefaultSessionInternal, needsReCreation, hd, hc]

/-- Witness for C5: no default session exists, the first creation attempt
fails and the retry succeeds. -/
theorem C5_singleRetry_witness :
    (ensureDefaultSessionInternal
      { browsers := [], defaultBrowserSession := none
        activeSessionId := defaultSessionId, closedClients := [] }
      none (some { id := 3, isConnected := true, closeThrows := false })).attemptsMade = 2
    ∧ (ensureDefaultSessionInternal
      { browsers := [], defaultBrowserSession := none
        activeSessionId := defaultSessionId, closedClients := [] }
      none (some { id := 3, isConnected := true, closeThrows := false })).result
      = some { client := some { id := 3, isConnected := true, closeThrows := false },
               sessionId := defaultSessionId } := by
  have h := C5_singleRetry
    { browsers := [], defaultBrowserSession := none
      activeSessionId := defaultSessionId, closedClients := [] }
    none (some { id := 3, isConnected := true, closeThrows := false })
  have h4 := h.2.2.2.1 rfl rfl
  exact ⟨h4.1, (h4.2 _ rfl).1⟩

/-! ## Claim C8: overwriting an existing id -/

/-- C8 counterexample: with id `a` already in the map bound to a session
holding live client 1, a successful `createNewBrowserSession` under the same
id replaces the map entry with the new session while invoking close on
nothing — the previous Connection is left unclosed, which the claim says
never happens. -/
theorem C8_overwrite_counterexample :
    mapGet (createNewBrowserSession
      { browsers := [("a", { client := some { id := 1, isConnected := true, closeThrows := false },
                             sessionId := "a" })]
        defaultBrowserSession := none
        activeSessionId := "a"
        closedClients := [] }
      "a" (some { id := 2, isConnected := true, closeThrows := false })).1.browsers "a"
      = some { client := some { id := 2, isConnected := true, closeThrows := false },
               sessionId := "a" }
    ∧ (createNewBrowserSession
      { browsers := [("a", { client := some { id := 1, isConnected := true, closeThrows := false },
                             sessionId := "a" })]
        defaultBrowserSession := none
        activeSessionId := "a"
        closedClients := [] }
      "a" (some { id := 2, isConnected := true, closeThrows := false })).1.closedClients
      = [] := by
  exact ⟨rfl, rfl⟩

/-- C8 amended: `createNewBrowserSession` unconditionally overwrites the map
entry of an existing id on success and never invokes close on the previous
Connection — closing before replacement is the caller's responsibility. -/
theorem C8_overwriteLeavesOldUnclosed (s : SMState) (sid : String)
    (oldSess : BrowserSession) (c : TWClient)
    (_hold : mapGet s.browsers sid = some oldSess) :
    mapGet (createNewBrowserSession s sid (some c)).1.browsers sid
      = some { client := some c, sessionId := sid }
    ∧ (createNewBrowserSession s sid (some c)).1.closedClients = s.closedClients
    ∧ (createNewBrowserSession s sid (some c)).2
      = some { client := some c, sessionId := sid } := by
  refine ⟨?_, ?_, rfl⟩
  · simp only [createNewBrowserSession]
    rw [(setActive_proj _ _).1]
    split <;> exact mapGet_mapSet_self _ _ _
  · simp only [createNewBrowserSession]
    rw [(setActive_proj _ _).2.2]
    split <;> rfl

/-- Witness for C8's amended theorem at the concrete overwritten id. -/
theorem C8_overwriteLeavesOldUnclosed_witness :
    mapGet (createNewBrowserSession
      { browsers := [("a", { client := some { id := 1, isConnected := true, closeThrows := false },
                             sessionId := "a" })]
        defaultBrowserSession := none
        activeSessionId := "a"
        closedClients := [] }
      "a" (some { id := 2, isConnected := true, closeThrows := false })).1.browsers "a"
      = some { client := some { id := 2, isConnected := true, closeThrows := false },
               sessionId := "a" }
    ∧ (createNewBrowserSession
      { browsers := [("a", { client := some { id := 1, isConnected := true, closeThrows := false },
                             sessionId := "a" })]
        defaultBrowserSession := none
        activeSessionId := "a"
        closedClients := [] }
      "a" (some { id := 2, isConnected := true, closeThrows := false })).1.closedClients = [] := by
  have h := C8_overwriteLeavesOldUnclosed
    { browsers := [("a", { client := some { id := 1, isConnected := true, closeThrows := false },
                           sessionId := "a" })]
      defaultBrowserSession := none
      activeSessionId := "a"
      closedClients := [] }
    "a" { client := some { id := 1, isConnected := true, closeThrows := false }, sessionId := "a" }
    { id := 2, isConnected := true, closeThrows := false } rfl
  exact ⟨h.1, h.2.1⟩

/-! ## Claim C9: removal semantics -/

/-- C9: `cleanupSession` always deletes the entry from the registry map (the
close outcome cannot prevent it, since close exceptions are caught); a
tracked session's client has close invoked on it — also when that client's
close throws; if the removed id was active, the active id resets to the
default id; if the removed id is the default id, the default slot ends up
cleared.  The store-level `remove` likewise deletes its entry even when close
throws. -/
theorem C9_removeSemantics (s : SMState) (sid : String) :
    mapGet (cleanupSession s sid).browsers sid = none
    ∧ (∀ sess c, mapGet s.browsers sid = some sess → sess.client = some c →
        c.id ∈ (cleanupSession s sid).closedClients)
    ∧ (s.activeSessionId = sid → (cleanupSession s sid).activeSessionId = defaultSessionId)
    ∧ (sid = defaultSessionId → (cleanupSession s sid).defaultBrowserSession = none)
    ∧ (∀ st : StoreState, mapGet (storeRemove st sid).store sid = none) := by
  have htail : ∀ t : SMState,
      mapGet (cleanupTail t sid).browsers sid = none
      ∧ (cleanupTail t sid).closedClients = t.closedClients
      ∧ (t.activeSessionId = sid → (cleanupTail t sid).activeSessionId = defaultSessionId)
      ∧ (sid = defaultSessionId → (cleanupTail t sid).defaultBrowserSession = none) := by
    intro t
    refine ⟨?_, ?_, fun hact => ?_, fun hdefid => ?_⟩
    · simp only [cleanupTail]
      split_ifs <;> simp [setActive_browsers_eq, mapGet_mapDelete_self]
    · simp only [cleanupTail]
      split_ifs <;> simp [setActive_closed_eq]
    · simp only [cleanupTail]
      split_ifs <;> exact setActive_default_active _
    · subst hdefid
      simp only [cleanupTail]
      split_ifs with h1 h2 <;>
        simp_all [setActive_default_eq]
  have hsc : ∀ t : SMState, cleanupSession s sid
      = cleanupTail (match mapGet s.browsers sid with
          | some sess => closeBrowserGracefully s (some sess)
          | none => s) sid := fun _ => rfl
  refine ⟨?_, ?_, ?_, ?_, ?_⟩
  · exact (htail _).1
  · intro sess c hm hc
    rw [hsc s]
    rw [(htail _).2.1]
    simp only [hm]
    exact closeGrace_closes s sess c hc
  · intro hact
    rw [hsc s]
    apply (htail _).2.2.1
    cases hm : mapGet s.browsers sid <;> simp only [hm]
    · exact hact
    · rw [closeGrace_active_eq]
      exact hact
  · intro hdefid
    rw [hsc s]
    exact (htail _).2.2.2 hdefid
  · intro st
    unfold storeRemove
    cases hm : mapGet st.store sid
    · simpa using hm
    · exact mapGet_mapDelete_self _ _

/-- Witness for C9: removing the active non-default id whose client's close
throws still deletes the entry, logs the close invocation and resets the
active id; the store-level removal also deletes its entry. -/
theorem C9_removeSemantics_witness :
    mapGet (cleanupSession
      { browsers := [("w", { client := some { id := 5, isConnected := true, closeThrows := true },
                             sessionId := "w" })]
        defaultBrowserSession := none
        activeSessionId := "w"
        closedClients := [] } "w").browsers "w" = none
    ∧ 5 ∈ (cleanupSession
      { browsers := [("w", { client := some { id := 5, isConnected := true, closeThrows := true },
                             sessionId := "w" })]
        defaultBrowserSession := none
        activeSessionId := "w"
        closedClients := [] } "w").closedClients
    ∧ (cleanupSession
      { browsers := [("w", { client := some { id := 5, isConnected := true, closeThrows := true },
                             sessionId := "w" })]
        defaultBrowserSession := none
        activeSessionId := "w"
        closedClients := [] } "w").activeSessionId = defaultSessionId
    ∧ mapGet (storeRemove
      { store := [("z", { id := "z", client := { id := 6, isConnected := true, closeThrows := true },
                          created := 0 })]
        closedClients := [] } "z").store "z" = none := by
  have h := C9_removeSemantics
    { browsers := [("w", { client := some { id := 5, isConnected := true, closeThrows := true },
                           sessionId := "w" })]
      defaultBrowserSession := none
      activeSessionId := "w"
      closedClients := [] } "w"
  have h29 := C9_removeSemantics
    { browsers := [], defaultBrowserSession := none
      activeSessionId := defaultSessionId, closedClients := [] } "z"
  exact ⟨h.1, h.2.1 _ { id := 5, isConnected := true, closeThrows := true } rfl rfl,
    h.2.2.1 rfl, h29.2.2.2.2 _⟩

/-! ## Claim C3: shutdown closes every tracked connection -/

/-- Deleting an absent key is a no-op. -/
theorem mapDelete_of_not_mem {β : Type} (m : List (String × β)) (k : String)
    (hk : k ∉ m.map Prod.fst) : mapDelete m k = m := by
  induction m with
  | nil => rfl
  | cons p rest ih =>
    obtain ⟨k0, v0⟩ := p
    simp only [List.map_cons, List.mem_cons, not_or] at hk
    have hne : ¬(k0 == k) = true := by
      simp only [beq_iff_eq]
      exact fun he => hk.1 he.symm
    have hrest := ih hk.2
    simp only [mapDelete, List.filter_cons, hne, Bool.not_false, if_pos] at hrest ⊢
    simp only [Bool.not_eq_true] at hne
    simp [hne, hrest]

/-- `remove` on the head entry of the store when its key occurs nowhere
else. -/
theorem storeRemove_head (k : String) (sess : TWSession)
    (rest : List (String × TWSession)) (closed : List Nat)
    (hk : k ∉ rest.map Prod.fst) :
    storeRemove { store := (k, sess) :: rest, closedClients := closed } k
      = { store := rest, closedClients := closed ++ [sess.client.id] } := by
  have hrest := mapDelete_of_not_mem rest k hk
  simp only [mapDelete] at hrest
  simp [storeRemove, mapGet, mapDelete, List.filter_cons, hrest]

/-- The store's `removeAll` empties the map, preserves previously logged
closes and invokes close on every stored session's client. -/
theorem storeRemoveAll_spec (entries : List (String × TWSession)) :
    ∀ closed : List Nat, (entries.map Prod.fst).Nodup →
    (storeRemoveAll { store := entries, closedClients := closed }).store = []
    ∧ (∀ x ∈ closed,
        x ∈ (storeRemoveAll { store := entries, closedClients := closed }).closedClients)
    ∧ (∀ p ∈ entries,
        p.2.client.id ∈ (storeRemoveAll { store := entries, closedClients := closed }).closedClients) := by
  induction entries with
  | nil =>
    intro closed _
    refine ⟨rfl, fun x hx => hx, fun p hp => absurd hp (List.not_mem_nil p)⟩
  | cons q rest ih =>
    intro closed hnd
    obtain ⟨k, sess⟩ := q
    have hnd2 : (k :: rest.map Prod.fst).Nodup := hnd
    have hk : k ∉ rest.map Prod.fst := (List.nodup_cons.mp hnd2).1
    have hndr : (rest.map Prod.fst).Nodup := (List.nodup_cons.mp hnd2).2
    have hstep := storeRemove_head k sess rest closed hk
    have hrec := ih (closed ++ [sess.client.id]) hndr
    simp only [storeRemoveAll, List.map_cons, List.foldl_cons] at hrec ⊢
    rw [hstep]
    refine ⟨hrec.1, ?_, ?_⟩
    · intro x hx
      exact hrec.2.1 x (by simp [hx])
    · intro p hp
      rcases List.mem_cons.mp hp with hpq | hpr
      · subst hpq
        exact hrec.2.1 _ (by simp)
      · exact hrec.2.2 p hpr

/-- The close log only grows along the registry-wide closing fold. -/
theorem closeFold_mono (entries : List (String × BrowserSession)) :
    ∀ (acc : SMState) (x : Nat), x ∈ acc.closedClients →
      x ∈ (entries.foldl (fun a p => closeBrowserGracefully a (some p.2)) acc).closedClients := by
  induction entries with
  | nil => intro acc x hx; exact hx
  | cons q rest ih =>
    intro acc x hx
    simp only [List.foldl_cons]
    exact ih _ x (closeGrace_closed_mono acc (some q.2) x hx)

/-- The registry-wide closing fold invokes close on every listed session's
client. -/
theorem closeFold_closes (entries : List (String × BrowserSession)) :
    ∀ acc : SMState, ∀ p ∈ entries, ∀ c : TWClient, p.2.client = some c →
      c.id ∈ (entries.foldl (fun a p => closeBrowserGracefully a (some p.2)) acc).closedClients := by
  induction entries with
  | nil => intro acc p hp; exact absurd hp (List.not_mem_nil p)
  | cons q rest ih =>
    intro acc p hp c hc
    simp only [List.foldl_cons]
    rcases List.mem_cons.mp hp with hpq | hpr
    · subst hpq
      exact closeFold_mono rest _ c.id (closeGrace_closes acc p.2 c hc)
    · exact ih _ p hpr c hc

/-- `closeAllSessions` empties the map, clears the default slot, resets the
active id and invokes close on every tracked session's client. -/
theorem closeAllSessions_spec (s : SMState) :
    (closeAllSessions s).browsers = []
    ∧ (closeAllSessions s).defaultBrowserSession = none
    ∧ (closeAllSessions s).activeSessionId = defaultSessionId
    ∧ (∀ p ∈ s.browsers, ∀ c : TWClient, p.2.client = some c →
        c.id ∈ (closeAllSessions s).closedClients) := by
  refine ⟨?_, ?_, ?_, ?_⟩
  · simp only [closeAllSessions]
    rw [setActive_browsers_eq]
  · simp only [closeAllSessions]
    rw [setActive_default_eq]
  · simp only [closeAllSessions]
    exact setActive_default_active _
  · intro p hp c hc
    simp only [closeAllSessions]
    rw [setActive_closed_eq]
    exact closeFold_closes s.browsers s p hp c hc

/-- C3: on a termination signal, the exit watchdog's cleanup applies the
store-level removeAll and the registry-wide close in parallel (each arm acts
on its own component, so neither blocks the other and the combined effect is
their independent application): every session tracked in the registry map has
its client's close invoked, every session in the store map has its client's
close invoked, and both maps are empty before the process exits.
`ServerList.closeAll` is modelled from the spec as the registry removeAll
since src/server.ts is not among the sources. -/
theorem C3_shutdownClosesAll (a : AppState)
    (hnd : (a.store.store.map Prod.fst).Nodup) :
    (∀ p ∈ a.registry.browsers, ∀ c : TWClient, p.2.client = some c →
        c.id ∈ (handleExitCleanup a).registry.closedClients)
    ∧ (∀ p ∈ a.store.store, p.2.client.id ∈ (handleExitCleanup a).store.closedClients)
    ∧ (handleExitCleanup a).registry.browsers = []
    ∧ (handleExitCleanup a).store.store = []
    ∧ (handleExitCleanup a).registry = serverListCloseAll a.registry
    ∧ (handleExitCleanup a).store = storeRemoveAll a.store := by
  have hreg := closeAllSessions_spec a.registry
  have hst := storeRemoveAll_spec a.store.store a.store.closedClients hnd
  exact ⟨fun p hp c hc => hreg.2.2.2 p hp c hc, fun p hp => hst.2.2 p hp,
    hreg.1, hst.1, rfl, rfl⟩

/-- Witness for C3 at a concrete state: one registry session (client 1, whose
close throws) and one store session (client 2). -/
theorem C3_shutdownClosesAll_witness :
    1 ∈ (handleExitCleanup
      { registry := { browsers := [("r", { client := some { id := 1, isConnected := true, closeThrows := true },
                                           sessionId := "r" })]
                      defaultBrowserSession := none
                      activeSessionId := "r"
                      closedClients := [] }
        store := { store := [("s", { id := "s", client := { id := 2, isConnected := true, closeThrows := false },
                                     created := 0 })]
                   closedClients := [] } }).registry.closedClients
    ∧ 2 ∈ (handleExitCleanup
      { registry := { browsers := [("r", { client := some { id := 1, isConnected := true, closeThrows := true },
                                           sessionId := "r" })]
                      defaultBrowserSession := none
                      activeSessionId := "r"
                      closedClients := [] }
        store := { store := [("s", { id := "s", client := { id := 2, isConnected := true, closeThrows := false },
                                     created := 0 })]
                   closedClients := [] } }).store.closedClients := by
  have h := C3_shutdownClosesAll
    { registry := { browsers := [("r", { client := some { id := 1, isConnected := true, closeThrows := true },
                                         sessionId := "r" })]
                    defaultBrowserSession := none
                    activeSessionId := "r"
                    closedClients := [] }
      store := { store := [("s", { id := "s", client := { id := 2, isConnected := true, closeThrows := false },
                                   created := 0 })]
                 closedClients := [] } } (by decide)
  exact ⟨h.1 ("r", { client := some { id := 1, isConnected := true, closeThrows := true },
                     sessionId := "r" }) (by simp)
           { id := 1, isConnected := true, closeThrows := true } rfl,
    h.2.1 ("s", { id := "s", client := { id := 2, isConnected := true, closeThrows := false },
                  created := 0 }) (by simp)⟩

end TzafonWright
